import Mathlib

/-!
Shallow embedding of the `next-care` user-management router
(`src/one-health/app/api/api_v1/routers/users.py`) together with the
persistence and security collaborators it calls.  The collaborators
(`crud.user`, `crud.user_role`, `app.core.security`, the pydantic
schemas) are not part of this repository snapshot, so they are modelled
from the specification (section 6, External Interfaces); each such
definition is marked `Modelled from the spec:` in its doc comment.
Handlers under `src/` are translated statement by statement.
-/

set_option autoImplicit false

namespace NextCare

/-- A role record (`app.constants.role.Role` entries): an identifier and a
display name, reached in the source via `user_role.role.name`. -/
structure Role where
  name : String
deriving Repr, DecidableEq

/-- A `UserRole` association record: links a user identifier to a role
identifier; the ORM relationship also exposes the `Role` record itself
(`current_user.user_role.role.name` in `read_user_me`). -/
structure UserRole where
  user_id : String
  role_id : Nat
  role : Role
deriving Repr, DecidableEq

/-- A stored user record, with the fields the handlers in `users.py` read:
`user_id`, `password` (hashed), `email`, `phone_number`, `id`, `is_active`,
`full_name`, `created_at`, `updated_at`, and the `user_role` ORM
relationship (zero-or-one role assignment). -/
structure User where
  id : String
  user_id : String
  email : String
  phone_number : String
  full_name : String
  password : String
  is_active : Bool
  created_at : Nat
  updated_at : Nat
  user_role : Option UserRole
deriving Repr, DecidableEq

/-- An item returned by the paginated listing (`crud.user.get_items`); the
route filters by an integer status.  Modelled from the spec: the item
store is a bare record with a status field (section 3, DoctorCase). -/
structure Item where
  case_id : String
  status : Int
deriving Repr, DecidableEq

/-- The persistence store the handlers query: stored users, the user-role
association records, and the listable items. -/
structure DB where
  users : List User
  user_roles : List UserRole
  items : List Item
deriving Repr, DecidableEq

/-- Modelled from the spec: the secret hashing scheme
(`hash(plaintext) -> hashed`, section 6); a deterministic injective
tagging stands in for the concrete algorithm. -/
def get_password_hash (plaintext : String) : String :=
  "hashed$" ++ plaintext

/-- Modelled from the spec: `verify(plaintext, hashed) -> boolean`
(`security.verify_password` in the source, section 4.2: pure and
deterministic given the hashing scheme). -/
def verify_password (plaintext hashed : String) : Bool :=
  get_password_hash plaintext == hashed

/-- Modelled from the spec: `crud.user.get_by_email_or_phone` resolves a
user whose email equals the identifier OR whose phone number equals the
identifier (section 4.1 step 1); an empty result is `none`. -/
def get_by_email_or_phone (db : DB) (email phone_number : String) : Option User :=
  db.users.find? (fun u => u.email == email || u.phone_number == phone_number)

/-- Modelled from the spec: `crud.user.get_by_email` resolves a user by
email (section 6); an empty result is `none`. -/
def get_by_email (db : DB) (email : String) : Option User :=
  db.users.find? (fun u => u.email == email)

/-- Modelled from the spec: `crud.user_role.get_by_user_id` resolves the
single role assignment of a user (section 4.3,
`resolve_role(user_id) -> role_assignment | absent`). -/
def user_role_get_by_user_id (db : DB) (user_id : String) : Option UserRole :=
  db.user_roles.find? (fun r => r.user_id == user_id)

/-- Modelled from the spec: `crud.user.get_items` fetches `limit` items
starting at `skip` matching a status filter (section 4.4). -/
def user_get_items (db : DB) (status : Int) (skip limit : Nat) : List Item :=
  ((db.items.filter (fun it => it.status == status)).drop skip).take limit

/-- A Python exception as observed by the handlers: either a FastAPI
`HTTPException` carrying a status code and detail, or an
`AttributeError` (raised when an attribute of `None` is accessed). -/
inductive PyExc where
  | httpExc (status_code : Nat) (detail : String)
  | attributeError (msg : String)
deriving Repr, DecidableEq

/-- The JSON body of a `JSONResponse` built by the handlers: the login
success body `{message, status, user_id}`, the plain success body
`{message, status}`, or the failure body `{detail, status}`. -/
inductive Content where
  | loginSuccess (message : String) (status : Nat) (user_id : String)
  | message (message : String) (status : Nat)
  | detail (detail : String) (status : Nat)
deriving Repr, DecidableEq

/-- A `JSONResponse`: a JSON content body plus an HTTP status code. -/
structure JSONResponse where
  content : Content
  status_code : Nat
deriving Repr, DecidableEq

/-- The `UserLogin` request schema: an email-or-phone identifier, a
plaintext password, and a claimed role identifier. -/
structure UserLogin where
  email_or_phone_no : String
  password : String
  user_role : Nat
deriving Repr, DecidableEq

/-- The `/user-login` handler (named `create_user` in the source; the
name collides with the `/create-user` handler, so the login one is named
`user_login` here).  The `try` body runs in `Except PyExc`; the
`except HTTPException` clause converts only `httpExc` failures into a
`JSONResponse`, so any other exception propagates as `.error`.  The
absent-assignment case models `db_user.role_id` on a `None` result:
Python raises `AttributeError`. -/
def user_login (db : DB) (user_dtl : UserLogin) : Except PyExc JSONResponse :=
  let body : Except PyExc JSONResponse :=
    match get_by_email_or_phone db user_dtl.email_or_phone_no user_dtl.email_or_phone_no with
    | some user =>
      if verify_password user_dtl.password user.password = false then
        .error (.httpExc 409 "Please check user credentials")
      else
        match user_role_get_by_user_id db user.user_id with
        | none => .error (.attributeError "NoneType object has no attribute role_id")
        | some db_user =>
          if db_user.role_id ≠ user_dtl.user_role then
            .error (.httpExc 409 "User role does not match")
          else
            .ok ⟨.loginSuccess "Login successful" 200 user.user_id, 200⟩
    | none => .error (.httpExc 409 "User does not exist, please sign up.")
  match body with
  | .error (.httpExc s d) => .ok ⟨.detail d s, s⟩
  | other => other

/-- The `UserCreate` request schema, with the fields the `/create-user`
handler and the persistence create use. -/
structure UserCreate where
  email_id : String
  password : String
  full_name : String
  phone_number : String
deriving Repr, DecidableEq

/-- Modelled from the spec: `crud.user.create` persists a new record with
a hashed secret (section 4.5) and returns it; the generated identifier is
fresh for the store. -/
def user_crud_create (db : DB) (obj_in : UserCreate) : DB × User :=
  let u : User :=
    { id := toString db.users.length
      user_id := toString db.users.length
      email := obj_in.email_id
      phone_number := obj_in.phone_number
      full_name := obj_in.full_name
      password := get_password_hash obj_in.password
      is_active := true
      created_at := 0
      updated_at := 0
      user_role := none }
  ({ db with users := db.users ++ [u] }, u)

/-- The `/create-user` handler (`create_user` in the source): reject with
a 409 when a user with the given email exists, otherwise persist a new
record and report success.  The only exception raised in the `try` body
is the `HTTPException`, which its own `except` clause converts, so the
handler is total; it returns the (possibly updated) store and the
response. -/
def create_user (db : DB) (user_in : UserCreate) : DB × JSONResponse :=
  match get_by_email db user_in.email_id with
  | some _ =>
    (db, ⟨.detail "The user with this user email already exists in the system." 409, 409⟩)
  | none =>
    let res := user_crud_create db user_in
    (res.1, ⟨.message "User created successfully" 200, 200⟩)

/-- The `UserUpdate` data assembled by `update_user_me`: a full copy of
the current user's editable fields, some then overwritten. -/
structure UserUpdate where
  full_name : String
  phone_number : String
  email : String
deriving Repr, DecidableEq

/-- `schemas.UserUpdate(**current_user_data)`: the update object starts as
a copy of the current user's fields. -/
def userUpdate_of_user (u : User) : UserUpdate :=
  { full_name := u.full_name, phone_number := u.phone_number, email := u.email }

/-- Modelled from the spec: `crud.user.update` merges the changeset into
the existing record, overwriting exactly the fields the changeset carries
(section 4.5). -/
def user_crud_update (db_obj : User) (obj_in : UserUpdate) : User :=
  { db_obj with
      full_name := obj_in.full_name
      phone_number := obj_in.phone_number
      email := obj_in.email }

/-- The `PUT /me` handler `update_user_me`: each of the three `Body(None)`
parameters is overwritten onto the copied update object only when
provided (`is not None`), in the source's order (phone number, full name,
email), and the merged object is persisted onto the current user. -/
def update_user_me (current_user : User)
    (full_name phone_number email : Option String) : User :=
  let user_in := userUpdate_of_user current_user
  let user_in := match phone_number with
    | some p => { user_in with phone_number := p }
    | none => user_in
  let user_in := match full_name with
    | some f => { user_in with full_name := f }
    | none => user_in
  let user_in := match email with
    | some e => { user_in with email := e }
    | none => user_in
  user_crud_update current_user user_in

/-- The `schemas.User` response model built by `read_user_me`. -/
structure SchemasUser where
  id : String
  email : String
  is_active : Bool
  full_name : String
  created_at : Nat
  updated_at : Nat
  role : Option String
deriving Repr, DecidableEq

/-- The `GET /me` handler `read_user_me`: the role field is `None` when
the current user has no role assignment, else the assigned role's name;
the remaining fields are copied from the current user. -/
def read_user_me (current_user : User) : SchemasUser :=
  let role : Option String :=
    match current_user.user_role with
    | none => none
    | some ur => some ur.role.name
  { id := current_user.id
    email := current_user.email
    is_active := current_user.is_active
    full_name := current_user.full_name
    created_at := current_user.created_at
    updated_at := current_user.updated_at
    role := role }

/-- The `PaginatedItemList` response schema. -/
structure PaginatedItemList where
  total : Nat
  items : List Item
  skip : Nat
  limit : Nat
deriving Repr, DecidableEq

/-- The `GET /items/` handler `get_items`: computes
`skip = (page - 1) * limit`, fetches the page from the store, and wraps
it with `total` set to the length of the fetched page. -/
def get_items (db : DB) (status : Int) (page limit : Nat) : PaginatedItemList :=
  let skip := (page - 1) * limit
  let items := user_get_items db status skip limit
  { total := items.length, items := items, skip := skip, limit := limit }

/-- Claim C10: `read_user_me` returns a profile whose role field is `None`
exactly when the current user has no role assignment, and otherwise the
name of the assigned role; id, email, is_active, full_name, created_at
and updated_at are the current user's stored values unchanged. -/
theorem read_user_me_spec (u : User) :
    (read_user_me u).role = Option.map (fun ur => ur.role.name) u.user_role ∧
    (read_user_me u).id = u.id ∧
    (read_user_me u).email = u.email ∧
    (read_user_me u).is_active = u.is_active ∧
    (read_user_me u).full_name = u.full_name ∧
    (read_user_me u).created_at = u.created_at ∧
    (read_user_me u).updated_at = u.updated_at := by
  cases h : u.user_role <;> simp [read_user_me, h]

/-- Claim C8: `update_user_me` changes exactly the provided fields among
full_name, phone_number and email; every other stored field keeps its
prior value, and applying the same partial update twice equals applying
it once. -/
theorem update_user_me_spec (u : User) (full_name phone_number email : Option String) :
    (update_user_me u full_name phone_number email).full_name =
      full_name.getD u.full_name ∧
    (update_user_me u full_name phone_number email).phone_number =
      phone_number.getD u.phone_number ∧
    (update_user_me u full_name phone_number email).email = email.getD u.email ∧
    (update_user_me u full_name phone_number email).id = u.id ∧
    (update_user_me u full_name phone_number email).user_id = u.user_id ∧
    (update_user_me u full_name phone_number email).password = u.password ∧
    (update_user_me u full_name phone_number email).is_active = u.is_active ∧
    (update_user_me u full_name phone_number email).created_at = u.created_at ∧
    (update_user_me u full_name phone_number email).updated_at = u.updated_at ∧
    (update_user_me u full_name phone_number email).user_role = u.user_role ∧
    update_user_me (update_user_me u full_name phone_number email)
        full_name phone_number email =
      update_user_me u full_name phone_number email := by
  cases full_name <;> cases phone_number <;> cases email <;>
    simp [update_user_me, userUpdate_of_user, user_crud_update]

/-- Claim C4: for page ≥ 1 and limit ≥ 1, the listing uses
skip = (page - 1) * limit, fetches at most limit items at that offset
under the status filter, and returns skip and limit unchanged with total
equal to the length of the returned page; page=1 gives skip=0, page=2
with limit=10 gives skip=10, and the item count is at most limit. -/
theorem get_items_pagination (db : DB) (status : Int) (page limit : Nat)
    (hpage : 1 ≤ page) (hlimit : 1 ≤ limit) :
    (get_items db status page limit).skip = (page - 1) * limit ∧
    (get_items db status page limit).limit = limit ∧
    (get_items db status page limit).items =
      user_get_items db status ((page - 1) * limit) limit ∧
    (get_items db status page limit).total =
      (get_items db status page limit).items.length ∧
    (get_items db status page limit).items.length ≤ limit ∧
    (page = 1 → (get_items db status page limit).skip = 0) ∧
    (page = 2 → limit = 10 → (get_items db status page limit).skip = 10) := by
  refine ⟨rfl, rfl, rfl, rfl, ?_, ?_, ?_⟩
  · exact List.length_take_le limit _
  · rintro rfl
    simp [get_items]
  · rintro rfl rfl
    rfl

/-- Witness for C4 at page = 2, limit = 10 on a one-item store. -/
theorem get_items_pagination_witness :
    (get_items ⟨[], [], [⟨"c1", 5⟩]⟩ 5 2 10).skip = (2 - 1) * 10 ∧
    (get_items ⟨[], [], [⟨"c1", 5⟩]⟩ 5 2 10).limit = 10 ∧
    (get_items ⟨[], [], [⟨"c1", 5⟩]⟩ 5 2 10).items.length ≤ 10 := by
  have h := get_items_pagination ⟨[], [], [⟨"c1", 5⟩]⟩ 5 2 10 (by decide) (by decide)
  exact ⟨h.1, h.2.1, h.2.2.2.2.1⟩

/-- Exhaustive shape of the login handler's result: a 200 success
response, a 409 detail response, or an uncaught `AttributeError`. -/
theorem user_login_shape (db : DB) (user_dtl : UserLogin) :
    (∃ uid, user_login db user_dtl =
      .ok ⟨.loginSuccess "Login successful" 200 uid, 200⟩) ∨
    (∃ d, user_login db user_dtl = .ok ⟨.detail d 409, 409⟩) ∨
    user_login db user_dtl =
      .error (.attributeError "NoneType object has no attribute role_id") := by
  cases hfind : get_by_email_or_phone db user_dtl.email_or_phone_no
      user_dtl.email_or_phone_no with
  | none =>
    exact Or.inr (Or.inl ⟨"User does not exist, please sign up.",
      by simp [user_login, hfind]⟩)
  | some u =>
    cases hverify : verify_password user_dtl.password u.password with
    | false =>
      exact Or.inr (Or.inl ⟨"Please check user credentials",
        by simp [user_login, hfind, hverify]⟩)
    | true =>
      cases hrole : user_role_get_by_user_id db u.user_id with
      | none =>
        exact Or.inr (Or.inr (by simp [user_login, hfind, hverify, hrole]))
      | some db_user =>
        by_cases hcl : db_user.role_id = user_dtl.user_role
        · exact Or.inl ⟨u.user_id, by simp [user_login, hfind, hverify, hrole, hcl]⟩
        · exact Or.inr (Or.inl ⟨"User role does not match",
            by simp [user_login, hfind, hverify, hrole, hcl]⟩)

/-- Claim C1: for a stored user resolved by the presented identifier
(their email or phone number), whose stored hashed secret verifies
against the presented secret, and whose stored role assignment carries
the claimed role identifier, the login handler succeeds with status 200
and the user's identifier. -/
theorem user_login_success (db : DB) (u : User) (ident secret : String)
    (r : UserRole) (claimed : Nat)
    (hident : ident = u.email ∨ ident = u.phone_number)
    (hfind : get_by_email_or_phone db ident ident = some u)
    (hverify : verify_password secret u.password = true)
    (hrole : user_role_get_by_user_id db u.user_id = some r)
    (hclaim : claimed = r.role_id) :
    user_login db ⟨ident, secret, claimed⟩ =
      .ok ⟨.loginSuccess "Login successful" 200 u.user_id, 200⟩ := by
  simp [user_login, hfind, hverify, hrole, hclaim]

/-- Witness for C1: a concrete user logging in with their email, correct
password and matching role identifier. -/
theorem user_login_success_witness :
    user_login
      ⟨[⟨"1", "u1", "ann@example.com", "111", "Ann",
          get_password_hash "pw1", true, 0, 0, none⟩],
        [⟨"u1", 3, ⟨"ADMIN"⟩⟩], []⟩
      ⟨"ann@example.com", "pw1", 3⟩ =
      .ok ⟨.loginSuccess "Login successful" 200 "u1", 200⟩ :=
  user_login_success
    ⟨[⟨"1", "u1", "ann@example.com", "111", "Ann",
        get_password_hash "pw1", true, 0, 0, none⟩],
      [⟨"u1", 3, ⟨"ADMIN"⟩⟩], []⟩
    ⟨"1", "u1", "ann@example.com", "111", "Ann",
      get_password_hash "pw1", true, 0, 0, none⟩
    "ann@example.com" "pw1" ⟨"u1", 3, ⟨"ADMIN"⟩⟩ 3
    (Or.inl rfl) (by decide) (by decide) (by decide) rfl

/-- Claim C5: when a user is resolved for the identifier but the
presented secret does not verify against the stored hashed secret, the
handler answers 409 with detail "Please check user credentials", and the
role store is never consulted: the same response results whatever the
role assignments are. -/
theorem user_login_credential_mismatch (db : DB) (user_dtl : UserLogin) (u : User)
    (hfind : get_by_email_or_phone db user_dtl.email_or_phone_no
      user_dtl.email_or_phone_no = some u)
    (hverify : verify_password user_dtl.password u.password = false) :
    user_login db user_dtl = .ok ⟨.detail "Please check user credentials" 409, 409⟩ ∧
    ∀ roles : List UserRole,
      user_login { db with user_roles := roles } user_dtl =
        .ok ⟨.detail "Please check user credentials" 409, 409⟩ := by
  have hfind2 : ∀ roles : List UserRole,
      get_by_email_or_phone { db with user_roles := roles }
        user_dtl.email_or_phone_no user_dtl.email_or_phone_no = some u := by
    intro roles
    simpa [get_by_email_or_phone] using hfind
  refine ⟨by simp [user_login, hfind, hverify], fun roles => ?_⟩
  simp [user_login, hfind2 roles, hverify]

/-- Witness for C5: a concrete user presenting a wrong password. -/
theorem user_login_credential_mismatch_witness :
    user_login
      ⟨[⟨"4", "u4", "dan@example.com", "444", "Dan",
          get_password_hash "pw4", true, 0, 0, none⟩],
        [⟨"u4", 1, ⟨"ADMIN"⟩⟩], []⟩
      ⟨"dan@example.com", "wrong", 1⟩ =
      .ok ⟨.detail "Please check user credentials" 409, 409⟩ :=
  (user_login_credential_mismatch
    ⟨[⟨"4", "u4", "dan@example.com", "444", "Dan",
        get_password_hash "pw4", true, 0, 0, none⟩],
      [⟨"u4", 1, ⟨"ADMIN"⟩⟩], []⟩
    ⟨"dan@example.com", "wrong", 1⟩
    ⟨"4", "u4", "dan@example.com", "444", "Dan",
      get_password_hash "pw4", true, 0, 0, none⟩
    (by decide) (by decide)).1

/-- Claim C6: when the identifier equals neither the email nor the phone
number of any stored user, the handler answers 409 with detail "User
does not exist, please sign up."; no credential verification happens
(the response is the same for every presented secret) and no role
resolution happens (the response is the same for every role store). -/
theorem user_login_not_found (db : DB) (user_dtl : UserLogin)
    (hno : ∀ u ∈ db.users, u.email ≠ user_dtl.email_or_phone_no ∧
      u.phone_number ≠ user_dtl.email_or_phone_no) :
    user_login db user_dtl =
      .ok ⟨.detail "User does not exist, please sign up." 409, 409⟩ ∧
    (∀ secret, user_login db { user_dtl with password := secret } =
      .ok ⟨.detail "User does not exist, please sign up." 409, 409⟩) ∧
    (∀ roles : List UserRole,
      user_login { db with user_roles := roles } user_dtl =
        .ok ⟨.detail "User does not exist, please sign up." 409, 409⟩) := by
  have hfind : ∀ roles : List UserRole,
      get_by_email_or_phone { db with user_roles := roles }
        user_dtl.email_or_phone_no user_dtl.email_or_phone_no = none := by
    intro roles
    rw [get_by_email_or_phone, List.find?_eq_none]
    intro x hx
    simpa using hno x hx
  have hfind0 : get_by_email_or_phone db user_dtl.email_or_phone_no
      user_dtl.email_or_phone_no = none := by
    rw [get_by_email_or_phone, List.find?_eq_none]
    intro x hx
    simpa using hno x hx
  refine ⟨by simp [user_login, hfind0], fun secret => ?_, fun roles => ?_⟩
  · simp [user_login, hfind0]
  · simp [user_login, hfind roles]

/-- Witness for C6: an identifier unknown to a nonempty store. -/
theorem user_login_not_found_witness :
    user_login
      ⟨[⟨"5", "u5", "gil@example.com", "555", "Gil",
          get_password_hash "pw5", true, 0, 0, none⟩], [], []⟩
      ⟨"nobody@example.com", "pw", 2⟩ =
      .ok ⟨.detail "User does not exist, please sign up." 409, 409⟩ :=
  (user_login_not_found
    ⟨[⟨"5", "u5", "gil@example.com", "555", "Gil",
        get_password_hash "pw5", true, 0, 0, none⟩], [], []⟩
    ⟨"nobody@example.com", "pw", 2⟩ (by decide)).1

/-- Claim C9: whenever the login handler returns a response whose status
is not 200, that status is 409, and the body is a detail pair carrying
the same 409; the failure kinds differ only in the detail text. -/
theorem user_login_failure_status (db : DB) (user_dtl : UserLogin)
    (resp : JSONResponse)
    (hok : user_login db user_dtl = .ok resp)
    (hfail : resp.status_code ≠ 200) :
    resp.status_code = 409 ∧ ∃ d, resp.content = .detail d 409 := by
  rcases user_login_shape db user_dtl with ⟨uid, h⟩ | ⟨d, h⟩ | h
  · rw [h] at hok
    cases hok
    exact absurd rfl hfail
  · rw [h] at hok
    cases hok
    exact ⟨rfl, d, rfl⟩
  · rw [h] at hok
    cases hok

/-- Witness for C9: the not-found failure carries status 409. -/
theorem user_login_failure_status_witness :
    (⟨Content.detail "User does not exist, please sign up." 409, 409⟩ :
      JSONResponse).status_code = 409 :=
  (user_login_failure_status ⟨[], [], []⟩ ⟨"nobody@example.com", "pw", 1⟩
    ⟨.detail "User does not exist, please sign up." 409, 409⟩
    rfl (by decide)).1

/-- Claim C2 (code bug): with a stored user whose password verifies but
who has no role assignment, the login handler does not produce a
RoleMismatch response; the attribute access on the absent assignment
raises an `AttributeError` that the `except HTTPException` clause does
not catch, so the call ends in an uncaught exception. -/
theorem user_login_absent_assignment_raises :
    user_login
      ⟨[⟨"2", "u2", "bob@example.com", "222", "Bob",
          get_password_hash "pw2", true, 0, 0, none⟩], [], []⟩
      ⟨"bob@example.com", "pw2", 1⟩ =
      .error (.attributeError "NoneType object has no attribute role_id") := rfl

/-- Counterexample to C3 as stated: at this input the failure inside the
flow is not re-expressed as a (status_code, message) response; the
handler's result is a propagating exception. -/
theorem user_login_uncaught_counterexample :
    user_login
      ⟨[⟨"3", "u3", "eve@example.com", "333", "Eve",
          get_password_hash "pw3", true, 0, 0, none⟩], [], []⟩
      ⟨"eve@example.com", "pw3", 2⟩ =
      .error (.attributeError "NoneType object has no attribute role_id") := rfl

/-- Claim C3 as amended: every `HTTPException` raised inside the login
flow is caught by the handler and re-expressed as a (status_code,
message) response; the only exception that can propagate past the
handler is the `AttributeError` from accessing the role of a user with
no role assignment. -/
theorem user_login_exceptions (db : DB) (user_dtl : UserLogin) :
    (∀ s d, user_login db user_dtl ≠ .error (.httpExc s d)) ∧
    ((∃ resp : JSONResponse, user_login db user_dtl = .ok resp) ∨
      user_login db user_dtl =
        .error (.attributeError "NoneType object has no attribute role_id")) := by
  rcases user_login_shape db user_dtl with ⟨uid, h⟩ | ⟨d, h⟩ | h
  · exact ⟨fun s dd => by simp [h], Or.inl ⟨_, h⟩⟩
  · exact ⟨fun s dd => by simp [h], Or.inl ⟨_, h⟩⟩
  · exact ⟨fun s dd => by simp [h], Or.inr h⟩

/-- Claim C7: creating a user with an already-stored email answers 409
and leaves the store unchanged; creating with a fresh email succeeds,
persists a record with a hashed secret, and a subsequent lookup by that
email returns the new record. -/
theorem create_user_spec (db : DB) (user_in : UserCreate) :
    (∀ u : User, get_by_email db user_in.email_id = some u →
      create_user db user_in =
        (db, ⟨.detail
          "The user with this user email already exists in the system." 409, 409⟩)) ∧
    (get_by_email db user_in.email_id = none →
      (create_user db user_in).2 = ⟨.message "User created successfully" 200, 200⟩ ∧
      get_by_email (create_user db user_in).1 user_in.email_id =
        some (user_crud_create db user_in).2 ∧
      (user_crud_create db user_in).2.password = get_password_hash user_in.password ∧
      (user_crud_create db user_in).2.email = user_in.email_id ∧
      (user_crud_create db user_in).2.full_name = user_in.full_name ∧
      (user_crud_create db user_in).2.phone_number = user_in.phone_number) := by
  constructor
  · intro u hu
    simp [create_user, hu]
  · intro hnone
    refine ⟨by simp [create_user, hnone], ?_, rfl, rfl, rfl, rfl⟩
    rw [get_by_email] at hnone
    simp [create_user, hnone, get_by_email, user_crud_create, List.find?_append]

/-- Witness for C7: a conflicting creation on a store already holding the
email, and a fresh creation on an empty store followed by a lookup. -/
theorem create_user_spec_witness :
    create_user
      ⟨[⟨"6", "u6", "hal@example.com", "666", "Hal",
          get_password_hash "pw6", true, 0, 0, none⟩], [], []⟩
      ⟨"hal@example.com", "pwX", "Hal Again", "667"⟩ =
      (⟨[⟨"6", "u6", "hal@example.com", "666", "Hal",
          get_password_hash "pw6", true, 0, 0, none⟩], [], []⟩,
        ⟨.detail
          "The user with this user email already exists in the system." 409, 409⟩) ∧
    (create_user ⟨[], [], []⟩ ⟨"new@example.com", "pw7", "New", "777"⟩).2 =
      ⟨.message "User created successfully" 200, 200⟩ ∧
    get_by_email (create_user ⟨[], [], []⟩
        ⟨"new@example.com", "pw7", "New", "777"⟩).1 "new@example.com" =
      some (user_crud_create ⟨[], [], []⟩
        ⟨"new@example.com", "pw7", "New", "777"⟩).2 :=
  ⟨(create_user_spec
      ⟨[⟨"6", "u6", "hal@example.com", "666", "Hal",
          get_password_hash "pw6", true, 0, 0, none⟩], [], []⟩
      ⟨"hal@example.com", "pwX", "Hal Again", "667"⟩).1
      ⟨"6", "u6", "hal@example.com", "666", "Hal",
        get_password_hash "pw6", true, 0, 0, none⟩ (by decide),
    ((create_user_spec ⟨[], [], []⟩ ⟨"new@example.com", "pw7", "New", "777"⟩).2
      (by decide)).1,
    (((create_user_spec ⟨[], [], []⟩ ⟨"new@example.com", "pw7", "New", "777"⟩).2
      (by decide)).2).1⟩

end NextCare
